import Mathlib

/-!
Shallow embedding of `ext_rbd.py`, the RBD external-storage adapter
(create / attach / detach / grow / remove dispatcher around the `rbd` CLI).

Python strings are Lean `String`s; Python `None` becomes `Option.none`;
Python dictionaries of strings become association lists with
overwrite-on-insert semantics; the truthiness test `if x:` on an optional
string becomes `truthyOpt` (`some s` with `s ≠ ""`).  Backend subprocesses
are modelled by passing their observable result (exit code and captured
streams, or the parsed `showmapped` listing) as an explicit argument, and
each action returns the ordered list of argument vectors it would have
handed to the `rbd` binary.
-/

set_option autoImplicit false

namespace ExtRbd

/-- Decidable equality for `Except`, used to evaluate `read_env` results. -/
instance {ε α : Type} [DecidableEq ε] [DecidableEq α] :
    DecidableEq (Except ε α) := fun x y =>
  match x, y with
  | Except.error a, Except.error b =>
    if h : a = b then isTrue (by rw [h]) else isFalse (by simp [h])
  | Except.error _, Except.ok _ => isFalse (by simp)
  | Except.ok _, Except.error _ => isFalse (by simp)
  | Except.ok a, Except.ok b =>
    if h : a = b then isTrue (by rw [h]) else isFalse (by simp [h])

/-- Python `s.lower()` (ASCII, as `re.IGNORECASE` without `re.UNICODE`),
written on the character list so that it evaluates by `decide`. -/
def strLower (s : String) : String :=
  ⟨s.data.map Char.toLower⟩

/-- Python `s[n:]`, written on the character list. -/
def strDrop (s : String) (n : Nat) : String :=
  ⟨s.data.drop n⟩

/-- Whether `p` is an initial segment of `s`. -/
def strStarts (p s : List Char) : Bool :=
  match p, s with
  | [], _ => true
  | _ :: _, [] => false
  | a :: p', b :: s' => a == b && strStarts p' s'

/-- Python `s.startswith(p)`, written on the character lists. -/
def strStartsWith (s p : String) : Bool :=
  strStarts p.data s.data

/-- Python truthiness of an optional string: `None` and `""` are falsy. -/
def truthyOpt : Option String → Bool
  | none => false
  | some s => s ≠ ""

/-- Python `str()` applied to an optional string (`str(None) = "None"`). -/
def strOpt : Option String → String
  | none => "None"
  | some s => s

/-- Python whitespace as used by `str.strip()`. -/
def isPySpace (c : Char) : Bool :=
  c = ' ' || c = '\t' || c = '\n' || c = '\x0d' || c = '\x0b' || c = '\x0c'

/-- Python `str.strip()`: drop whitespace from both ends. -/
def pyStrip (s : String) : String :=
  ⟨((s.data.dropWhile isPySpace).reverse.dropWhile isPySpace).reverse⟩

/-- Lookup in a string-keyed dictionary represented as an association list
(`d.get(k)` / `d[k]` presence test). -/
def dictGet : List (String × String) → String → Option String
  | [], _ => none
  | (k', v) :: rest, k => if k' = k then some v else dictGet rest k

/-- Python `d.pop(k)` (the removal part): drop the binding of `k`. -/
def dictPop (d : List (String × String)) (k : String) : List (String × String) :=
  d.filter (fun p => p.1 ≠ k)

/-- Python `d[k] = v`: overwrite any previous binding of `k`. -/
def dictInsert (d : List (String × String)) (k : String) (v : String) :
    List (String × String) :=
  d.filter (fun p => p.1 ≠ k) ++ [(k, v)]

/-- The cephx credential dictionary built by `read_env`: each key is either
absent (`none`) or bound to the (non-empty) value of the corresponding
`EXTP_CEPHX_*` variable. -/
structure Cephx where
  id : Option String
  keyring : Option String
  keyfile : Option String
deriving DecidableEq

/-- Python truthiness of the cephx dict: `{}` is falsy. -/
def Cephx.isEmpty (c : Cephx) : Bool :=
  c.id = none && c.keyring = none && c.keyfile = none

/-- One entry of the backend's `showmapped --format json` listing: the
fields `RBD.list` / `RBD.get_device` consult. -/
structure Mapping where
  name : String
  pool : String
  device : String
deriving DecidableEq

namespace RBD

/-- `RBD.RBD_CMD`. -/
def RBD_CMD : String := "rbd"

/-- `RBD.format_name`: qualify a volume name with its pool (`pool/name`
when pool is not `None`) and snapshot (`…@snapshot`). -/
def format_name (name : String) (pool : Option String)
    (snapshot : Option String) : String :=
  let image_name := name
  let image_name :=
    match pool with
    | some p => p ++ "/" ++ image_name
    | none => image_name
  match snapshot with
  | some s => image_name ++ "@" ++ s
  | none => image_name

/-- The `cephx_args` block of `RBD.exc`: `--id`, `--keyring`, `--keyfile`
appended in that order, each only when the dict carries the key. -/
def cephx_args (c : Cephx) : List String :=
  let a : List String := []
  let a := match c.id with
    | some v => a ++ ["--id", v]
    | none => a
  let a := match c.keyring with
    | some v => a ++ ["--keyring", v]
    | none => a
  match c.keyfile with
  | some v => a ++ ["--keyfile", v]
  | none => a

/-- `RBD.exc`'s argument handling: prepend the cephx flags when the cephx
dict is truthy (not `None`, not `{}`). -/
def exc_args (cephx : Option Cephx) (args : List String) : List String :=
  match cephx with
  | none => args
  | some c => if c.isEmpty then args else cephx_args c ++ args

/-- Observable outcome of one subprocess: exit code and captured streams. -/
structure ExecResult where
  rc : Int
  stdout : String
  stderr : String
deriving DecidableEq

/-- The data carried by the `RBDException` raised in `RBD._exc`
(its message interpolates exactly these four values). -/
structure RBDExc where
  args : List String
  rc : Int
  out : String
  err : String
deriving DecidableEq

/-- `RBD._exc`: run `['rbd'] + args` (outcome supplied as `res`), strip both
streams; non-zero exit raises, zero exit returns the stripped stdout. -/
def excRun (args : List String) (res : ExecResult) : Except RBDExc String :=
  let out := pyStrip res.stdout
  let err := pyStrip res.stderr
  if res.rc ≠ 0 then Except.error ⟨args, res.rc, out, err⟩ else Except.ok out

/-- Pool filtering done by `RBD.list` on the parsed listing: filter only
when `pool` is truthy. -/
def list_filter (listing : List Mapping) (pool : Option String) :
    List Mapping :=
  if truthyOpt pool then
    listing.filter (fun m => m.pool == strOpt pool)
  else listing

/-- `RBD.get_device`: first listed mapping whose `name` equals `image`
(after `RBD.list`'s pool filter), returning its `device`; else `None`. -/
def get_device (listing : List Mapping) (image : String)
    (pool : Option String) : Option String :=
  ((list_filter listing pool).find? (fun m => m.name == image)).map
    (fun m => m.device)

/-- Argument vector of `RBD.list`'s backend call (`cephx=None`, so no auth
flags): `showmapped --format json`. -/
def showmapped_args : List String :=
  exc_args none ["showmapped", "--format", "json"]

/-- Argument vector built by `RBD.create`: optional image flags in source
order, the base `create <qualified> --size <size>` in front of them, and
the cephx flags prepended by `RBD.exc`. -/
def create_args (image : String) (size : String) (pool : Option String)
    (image_format : Option String) (image_features : Option String)
    (stripe_unit : Option String) (stripe_count : Option String)
    (cephx : Option Cephx) : List String :=
  let image := format_name image pool none
  let args : List String := []
  let args := match image_format with
    | some v => args ++ ["--image-format", v]
    | none => args
  let args := match image_features with
    | some v => args ++ ["--image-features", v]
    | none => args
  let args := match stripe_unit with
    | some v => args ++ ["--stripe-unit", v]
    | none => args
  let args := match stripe_count with
    | some v => args ++ ["--stripe-count", v]
    | none => args
  exc_args cephx (["create", image, "--size", size] ++ args)

/-- Argument vector built by `RBD.map`. -/
def map_args (image : String) (pool : Option String)
    (cephx : Option Cephx) : List String :=
  exc_args cephx ["map", format_name image pool none]

/-- Argument vector built by `RBD.unmap` (a device path, never qualified). -/
def unmap_args (device : String) (cephx : Option Cephx) : List String :=
  exc_args cephx ["unmap", device]

end RBD

/-- `format_qemu_uri`: `kvm:rbd:<qualified>` plus `:id=` / `:conf=` parts.
The source indexes `cephx['id']` directly, so a dict without an `id` key
raises `KeyError`, modelled as `Except.error`. -/
def format_qemu_uri (name : String) (pool : Option String) (cephx : Cephx)
    (conf_file : Option String) : Except String String :=
  let uri := "kvm:rbd:" ++ RBD.format_name name pool none
  match cephx.id with
  | none => Except.error "KeyError: id"
  | some idv =>
    let extra_conf := if idv ≠ "" then ":id=" ++ idv else ""
    let extra_conf :=
      if truthyOpt conf_file then extra_conf ++ ":conf=" ++ strOpt conf_file
      else extra_conf
    Except.ok (if extra_conf ≠ "" then uri ++ extra_conf else uri)

/-- The typed view of the environment dictionary returned by `read_env`, as
consumed by the actions via `env.get(...)`. -/
structure Env where
  name : String
  size : Option String
  origin : Option String
  reuse_data : Bool
  userspace_only : Bool
  rbd_pool : Option String
  image_format : Option String
  image_features : Option String
  stripe_unit : Option String
  stripe_count : Option String
  cephx : Cephx
deriving DecidableEq

/-- The `create` action: status together with the argument vectors handed to
the backend.  `backendFails` stands for the backend's `create` call raising
`RBDException` (caught in `main`, which turns it into exit status 1). -/
def create_action (env : Env) (backendFails : Bool) :
    Nat × List (List String) :=
  if env.reuse_data then (0, [])
  else if truthyOpt env.origin then (1, [])
  else
    let args := RBD.create_args env.name (strOpt env.size) env.rbd_pool
      env.image_format env.image_features env.stripe_unit env.stripe_count
      (some env.cephx)
    (if backendFails then 1 else 0, [args])

/-- Result of the `attach` action: exit status, what was written to stdout,
the backend argument vectors in order, and the images passed to `rbd map`. -/
structure AttachResult where
  status : Nat
  out : String
  calls : List (List String)
  maps : List String
deriving DecidableEq

/-- The `attach` action, given the parsed `showmapped` listing and the
device string a successful `rbd map` would print.  The pre-check calls
`RBD.get_device(name)` — no pool, no cephx.  The URI is computed after the
device has been written; a `KeyError` there escapes to `main`'s generic
handler, exit status 1. -/
def attach_action (env : Env) (listing : List Mapping)
    (mapDevice : String) : AttachResult :=
  let dcm : String × List (List String) × List String :=
    if env.userspace_only then ("", [], [])
    else
      match RBD.get_device listing env.name none with
      | none =>
        (mapDevice,
         [RBD.showmapped_args, RBD.map_args env.name env.rbd_pool (some env.cephx)],
         [RBD.format_name env.name env.rbd_pool none])
      | some d => (d, [RBD.showmapped_args], [])
  let device := dcm.1
  match format_qemu_uri env.name env.rbd_pool env.cephx none with
  | Except.error _ =>
    { status := 1, out := device, calls := dcm.2.1, maps := dcm.2.2 }
  | Except.ok uri =>
    { status := 0, out := device ++ "\n" ++ uri, calls := dcm.2.1,
      maps := dcm.2.2 }

/-- Result of the `detach` action: exit status, backend argument vectors in
order, and the device paths passed to `rbd unmap`. -/
structure DetachResult where
  status : Nat
  calls : List (List String)
  unmaps : List String
deriving DecidableEq

/-- The `detach` action, given the parsed `showmapped` listing.  The
pre-check is `RBD.get_device(name, pool=pool)` (no cephx); `unmap` runs
only when the resolved device is truthy. -/
def detach_action (env : Env) (listing : List Mapping) : DetachResult :=
  if env.userspace_only then { status := 0, calls := [], unmaps := [] }
  else
    match RBD.get_device listing env.name env.rbd_pool with
    | some d =>
      if d ≠ "" then
        { status := 0,
          calls := [RBD.showmapped_args, RBD.unmap_args d (some env.cephx)],
          unmaps := [d] }
      else { status := 0, calls := [RBD.showmapped_args], unmaps := [] }
    | none => { status := 0, calls := [RBD.showmapped_args], unmaps := [] }

/-! ## `read_env`: the parameter extractor -/

/-- `PREFIX_EXTP`. -/
def PREFIX_EXTP : String := "EXTP_"

/-- The alternatives of `TRUE_PATTERN = '^(yes|true|on|1|set)$'`. -/
def TRUE_WORDS : List String := ["yes", "true", "on", "1", "set"]

/-- `re.match(TRUE_PATTERN, s, re.IGNORECASE) is not None`.  Python's `$`
matches at the end of the string or just before one trailing newline, so a
value with a single trailing newline also matches. -/
def matchTRUE (s : String) : Bool :=
  let t := strLower s
  TRUE_WORDS.contains t || (TRUE_WORDS.map (fun w => w ++ "\n")).contains t

/-- `os.getenv`: the process environment as an association list (keys are
unique in a process environment; lookup returns the first binding). -/
def getenv (environ : List (String × String)) (k : String) : Option String :=
  dictGet environ k

/-- The `extp_params` dictionary: every environment key starting with
`EXTP_` is stripped of the first five characters, lower-cased, and inserted. -/
def extpParams (environ : List (String × String)) : List (String × String) :=
  environ.foldl
    (fun acc kv =>
      if strStartsWith kv.1 PREFIX_EXTP then
        dictInsert acc (strLower (strDrop kv.1 PREFIX_EXTP.length)) kv.2
      else acc)
    []

/-- One boolean block of `read_env` (`reuse_data` / `userspace_only`): when
the dict value is truthy, re-read the original environment variable and
regex-match it — `os.getenv` returning `None` there makes `re.match` raise
`TypeError`, modelled as `Except.error`. -/
def parse_bool_param (key envKey : String)
    (environ : List (String × String)) (extp : List (String × String)) :
    Except String (Bool × List (String × String)) :=
  if truthyOpt (dictGet extp key) then
    match getenv environ envKey with
    | none => Except.error "TypeError"
    | some v => Except.ok (matchTRUE v, dictPop extp key)
  else Except.ok (false, extp)

/-- One iteration of the cephx extraction loop: when the key's value is
truthy, return it and pop the key; otherwise leave the dict alone. -/
def extract1 (key : String) (extp : List (String × String)) :
    Option String × List (String × String) :=
  match dictGet extp key with
  | some v => if v ≠ "" then (some v, dictPop extp key) else (none, extp)
  | none => (none, extp)

/-- The dictionary `read_env` returns: the fixed keys, plus the leftover
`extp_params` merged in by `env.update` (the pass-through fields). -/
structure ParsedEnv where
  name : String
  size : Option String
  snapshot_name : Option String
  cephx : Cephx
  reuse_data : Bool
  userspace_only : Bool
  extra : List (String × String)
deriving DecidableEq

/-- `read_env`: fail when `VOL_CNAME` is missing, build `extp_params`,
parse the two boolean toggles, extract the three cephx keys, and return the
environment dictionary. -/
def read_env (environ : List (String × String)) : Except String ParsedEnv :=
  match getenv environ "VOL_CNAME" with
  | none => Except.error "missing VOL_CNAME"
  | some name =>
    let extp := extpParams environ
    match parse_bool_param "reuse_data" "EXTP_REUSE_DATA" environ extp with
    | Except.error e => Except.error e
    | Except.ok rd =>
      match parse_bool_param "userspace_only" "EXTP_USERSPACE_ONLY" environ
          rd.2 with
      | Except.error e => Except.error e
      | Except.ok uo =>
        let r3 := extract1 "cephx_id" uo.2
        let r4 := extract1 "cephx_keyring" r3.2
        let r5 := extract1 "cephx_keyfile" r4.2
        Except.ok
          { name := name,
            size := getenv environ "VOL_SIZE",
            snapshot_name := getenv environ "VOL_SNAPSHOT_NAME",
            cephx := ⟨r3.1, r4.1, r5.1⟩,
            reuse_data := rd.1,
            userspace_only := uo.1,
            extra := r5.2 }

/-! ## Supporting lemmas -/

/-- Splitting a list at a separator element is unique when the separator
occurs in neither right-hand part. -/
lemma sep_split_unique {α : Type} [DecidableEq α] (sep : α) :
    ∀ (l1 l2 r1 r2 : List α), sep ∉ r1 → sep ∉ r2 →
      l1 ++ sep :: r1 = l2 ++ sep :: r2 → l1 = l2 ∧ r1 = r2 := by
  intro l1
  induction l1 with
  | nil =>
    intro l2 r1 r2 h1 h2 heq
    cases l2 with
    | nil => simpa using heq
    | cons b t =>
      simp only [List.nil_append, List.cons_append, List.cons.injEq] at heq
      obtain ⟨hb, hr⟩ := heq
      exact absurd (by rw [hr, hb]; simp : sep ∈ r1) h1
  | cons a t1 ih =>
    intro l2 r1 r2 h1 h2 heq
    cases l2 with
    | nil =>
      simp only [List.nil_append, List.cons_append, List.cons.injEq] at heq
      obtain ⟨hb, hr⟩ := heq
      exact absurd (by rw [← hr]; simp : sep ∈ r2) h2
    | cons b t2 =>
      simp only [List.cons_append, List.cons.injEq] at heq
      obtain ⟨hab, ht⟩ := heq
      obtain ⟨he1, he2⟩ := ih t2 r1 r2 h1 h2 ht
      exact ⟨by rw [hab, he1], he2⟩

/-- Character-list view of a pool-qualified name. -/
lemma format_name_some_data (n p : String) :
    (RBD.format_name n (some p) none).data = p.data ++ '/' :: n.data := by
  show (p ++ "/" ++ n).data = _
  rw [String.data_append, String.data_append]
  simp

/-- Popping one key leaves lookups of other keys unchanged. -/
lemma dictGet_pop_ne {k key : String} (h : k ≠ key) :
    ∀ d, dictGet (dictPop d key) k = dictGet d k := by
  intro d
  induction d with
  | nil => rfl
  | cons p t ih =>
    obtain ⟨k', v'⟩ := p
    by_cases hk : k' = key
    · subst hk
      simp only [dictPop, List.filter_cons] at ih ⊢
      simp only [dictGet, Ne.symm h, if_false, decide_True, Bool.not_true,
        if_neg (Ne.symm h)]
      simpa using ih
    · by_cases hkk : k' = k
      · subst hkk
        simp [dictPop, List.filter_cons, dictGet, hk]
      · simp [dictPop, List.filter_cons, dictGet, hk, hkk] at ih ⊢
        exact ih

/-- Popping a key removes its binding. -/
lemma dictGet_pop_self (key : String) :
    ∀ d, dictGet (dictPop d key) key = none := by
  intro d
  induction d with
  | nil => rfl
  | cons p t ih =>
    obtain ⟨k', v'⟩ := p
    by_cases hk : k' = key
    · simpa [dictPop, List.filter_cons, hk] using ih
    · simpa [dictPop, List.filter_cons, hk, dictGet] using ih

/-- A successful boolean-toggle parse leaves lookups of other keys in the
extended-parameter pool unchanged. -/
lemma parse_bool_param_get_ne {key envKey : String}
    {environ extp : List (String × String)} {r : Bool × List (String × String)}
    (h : parse_bool_param key envKey environ extp = Except.ok r)
    {k : String} (hk : k ≠ key) : dictGet r.2 k = dictGet extp k := by
  unfold parse_bool_param at h
  by_cases ht : truthyOpt (dictGet extp key) = true
  · rw [if_pos ht] at h
    cases hg : getenv environ envKey with
    | none => rw [hg] at h; cases h
    | some v =>
      rw [hg] at h
      injection h with h'
      rw [← h']
      exact dictGet_pop_ne hk extp
  · rw [if_neg ht] at h
    injection h with h'
    rw [← h']

/-- Extracting one cephx key leaves lookups of other keys unchanged. -/
lemma extract1_get_ne {key k : String} (extp : List (String × String))
    (h : k ≠ key) : dictGet (extract1 key extp).2 k = dictGet extp k := by
  unfold extract1
  cases hg : dictGet extp key with
  | none => rfl
  | some v =>
    by_cases hv : v = "" <;> simp [hv, dictGet_pop_ne h]

/-- Extracting a cephx key that is bound to a non-empty value moves the
value out and removes the binding. -/
lemma extract1_of_some {key : String} {extp : List (String × String)}
    {v : String} (hg : dictGet extp key = some v) (hv : v ≠ "") :
    (extract1 key extp).1 = some v ∧
      dictGet (extract1 key extp).2 key = none := by
  unfold extract1
  simp [hg, hv, dictGet_pop_self]

/-- Membership in the pool-filtered listing implies membership in the
listing. -/
lemma mem_list_filter {m : Mapping} {listing : List Mapping}
    {pool : Option String} (h : m ∈ RBD.list_filter listing pool) :
    m ∈ listing := by
  unfold RBD.list_filter at h
  split at h
  · exact (List.mem_filter.mp h).1
  · exact h

/-- `get_device` returns `none` exactly when no pool-filtered mapping
carries the volume's name. -/
lemma get_device_eq_none_iff {listing : List Mapping} {image : String}
    {pool : Option String} :
    RBD.get_device listing image pool = none ↔
      ∀ m ∈ RBD.list_filter listing pool, m.name ≠ image := by
  unfold RBD.get_device
  simp [List.find?_eq_none]

/-- A successful `get_device` lookup exhibits a pool-filtered mapping with
the volume's name and the returned device. -/
lemma get_device_eq_some {listing : List Mapping} {image : String}
    {pool : Option String} {d : String}
    (h : RBD.get_device listing image pool = some d) :
    ∃ m ∈ RBD.list_filter listing pool, m.name = image ∧ m.device = d := by
  unfold RBD.get_device at h
  cases hf : (RBD.list_filter listing pool).find? (fun m => m.name == image) with
  | none => rw [hf] at h; cases h
  | some m =>
    rw [hf] at h
    refine ⟨m, List.mem_of_find?_eq_some hf, ?_, ?_⟩
    · simpa using List.find?_some hf
    · simpa using h

/-! ## Claim theorems -/

/-- Spec-side description of one optional flag: `[flag, value]` when the
field is set, nothing otherwise. -/
def optPair (flag : String) (v : Option String) : List String :=
  match v with
  | some x => [flag, x]
  | none => []

/-- Claim C1 (code_bug evidence): on an attach invocation that reaches
artifact output with no auth id set (volume already mapped, empty cephx
dict), the code does not succeed with an `:id`-less URI; `format_qemu_uri`
raises `KeyError` on `cephx['id']`, so only the device is written and the
exit status is 1.  With an auth id set, the same invocation succeeds and
the URI carries `:id=`. -/
theorem C1_attach_uri_keyerror_without_id :
    attach_action
        ⟨"vol", none, none, false, false, none, none, none, none, none,
          ⟨none, none, none⟩⟩
        [⟨"vol", "rbd", "/dev/rbd0"⟩] "" =
      ⟨1, "/dev/rbd0", [["showmapped", "--format", "json"]], []⟩ ∧
    attach_action
        ⟨"vol", none, none, false, false, none, none, none, none, none,
          ⟨some "adm", none, none⟩⟩
        [⟨"vol", "rbd", "/dev/rbd0"⟩] "" =
      ⟨0, "/dev/rbd0\nkvm:rbd:vol:id=adm",
        [["showmapped", "--format", "json"]], []⟩ := by
  decide

/-- Claim C2 counterexample: with origin set and `reuseData` also set,
create returns status 0 (the reuse check runs first), not 1; and with
origin set to the empty string (falsy in Python), create proceeds to the
backend and returns 0. -/
theorem C2_counterexample :
    (create_action
        ⟨"v", some "10", some "src", true, false, none, none, none, none,
          none, ⟨none, none, none⟩⟩ false) = (0, []) ∧
    (create_action
        ⟨"v", some "10", some "", false, false, none, none, none, none,
          none, ⟨none, none, none⟩⟩ false) =
      (0, [["create", "v", "--size", "10"]]) := by
  decide

/-- Claim C2 (amended): for every VolumeConfig with origin set to a
non-empty string and `reuseData` false, create returns status 1 and
performs no backend invocation. -/
theorem C2_create_origin_fails (env : Env) (backendFails : Bool)
    (s : String) (hrd : env.reuse_data = false) (ho : env.origin = some s)
    (hs : s ≠ "") : create_action env backendFails = (1, []) := by
  simp [create_action, hrd, ho, truthyOpt, hs]

/-- Witness for `C2_create_origin_fails` at a concrete configuration. -/
theorem C2_create_origin_fails_witness :
    create_action
        ⟨"v", some "10", some "src", false, false, none, none, none, none,
          none, ⟨none, none, none⟩⟩ false = (1, []) :=
  C2_create_origin_fails _ false "src" rfl rfl (by decide)

/-- Claim C3 counterexample: `qualify` is not injective over (name, pool)
pairs — the name `a/b` with no pool and the name `b` in pool `a` produce
the same qualified name. -/
theorem C3_counterexample :
    RBD.format_name "a/b" none none = RBD.format_name "b" (some "a") none ∧
      ¬(("a/b" : String) = "b" ∧ (none : Option String) = some "a") := by
  constructor
  · rfl
  · decide

/-- Claim C3 (amended): `qualify(n, p)` equals `p ++ "/" ++ n` when a pool
is set and `n` otherwise, and it is injective over (name, pool) pairs whose
names contain no `/` separator (without that restriction distinct pairs can
collide). -/
theorem C3_qualify (n : String) :
    (∀ p, RBD.format_name n (some p) none = p ++ "/" ++ n) ∧
    RBD.format_name n none none = n ∧
    (∀ (n1 n2 : String) (p1 p2 : Option String), '/' ∉ n1.data →
        '/' ∉ n2.data →
        RBD.format_name n1 p1 none = RBD.format_name n2 p2 none →
        n1 = n2 ∧ p1 = p2) := by
  refine ⟨fun p => rfl, rfl, ?_⟩
  intro n1 n2 p1 p2 h1 h2 heq
  cases p1 with
  | none =>
    cases p2 with
    | none => exact ⟨heq, rfl⟩
    | some q =>
      have hd : n1.data = q.data ++ '/' :: n2.data := by
        rw [← format_name_some_data, ← heq]; rfl
      exact absurd (by rw [hd]; simp : '/' ∈ n1.data) h1
  | some q =>
    cases p2 with
    | none =>
      have hd : n2.data = q.data ++ '/' :: n1.data := by
        rw [← format_name_some_data, heq]; rfl
      exact absurd (by rw [hd]; simp : '/' ∈ n2.data) h2
    | some q2 =>
      have hd := congrArg String.data heq
      rw [format_name_some_data, format_name_some_data] at hd
      obtain ⟨hq, hn⟩ :=
        sep_split_unique '/' q.data q2.data n1.data n2.data h1 h2 hd
      exact ⟨String.ext hn, by rw [String.ext hq]⟩

/-- Witness for `C3_qualify` at concrete names and pools. -/
theorem C3_qualify_witness :
    ("img" : String) = "img" ∧ (some "pool" : Option String) = some "pool" :=
  (C3_qualify "x").2.2 "img" "img" (some "pool") (some "pool") (by decide)
    (by decide) rfl

/-- Claim C5: for every VolumeConfig with `reuseData` true, create returns
status 0 and invokes no backend command at all. -/
theorem C5_create_reuse_noop (env : Env) (backendFails : Bool)
    (h : env.reuse_data = true) : create_action env backendFails = (0, []) := by
  simp [create_action, h]

/-- Witness for `C5_create_reuse_noop` at a concrete configuration. -/
theorem C5_create_reuse_noop_witness :
    create_action
        ⟨"v", some "10", some "src", true, false, some "p", some "2", none,
          none, none, ⟨some "adm", none, none⟩⟩ true = (0, []) :=
  C5_create_reuse_noop _ true rfl

/-- Claim C4: detach is idempotent — with no device reported for the
volume's (pool-filtered) name there is no unmap and the status is 0; with a
(non-empty) device reported, exactly that device is unmapped once; and when
the listing associates at most one device per volume name (the backend
model: a successful unmap removes the device's mapping from the next
listing), two sequential detach calls issue at most one unmap in total and
the second call is a no-op success. -/
theorem C4_detach_idempotent (env : Env) (listing : List Mapping)
    (husp : env.userspace_only = false) :
    (RBD.get_device listing env.name env.rbd_pool = none →
        detach_action env listing =
          { status := 0, calls := [RBD.showmapped_args], unmaps := [] }) ∧
    (∀ d, RBD.get_device listing env.name env.rbd_pool = some d → d ≠ "" →
        detach_action env listing =
          { status := 0,
            calls := [RBD.showmapped_args,
              RBD.unmap_args d (some env.cephx)],
            unmaps := [d] }) ∧
    ((∀ m1 ∈ listing, ∀ m2 ∈ listing, m1.name = m2.name →
          m1.device = m2.device) →
      (detach_action env listing).unmaps.length +
          (detach_action env (listing.filter (fun m =>
            !((detach_action env listing).unmaps.contains
              m.device)))).unmaps.length ≤ 1 ∧
        detach_action env (listing.filter (fun m =>
            !((detach_action env listing).unmaps.contains m.device))) =
          { status := 0, calls := [RBD.showmapped_args], unmaps := [] }) := by
  refine ⟨?_, ?_, ?_⟩
  · intro h
    simp [detach_action, husp, h]
  · intro d h hd
    simp [detach_action, husp, h, hd]
  · intro huniq
    cases hgd : RBD.get_device listing env.name env.rbd_pool with
    | none =>
      have h1 : detach_action env listing =
          { status := 0, calls := [RBD.showmapped_args], unmaps := [] } := by
        simp [detach_action, husp, hgd]
      rw [h1]
      have hfil : (listing.filter (fun m =>
          !((⟨0, [RBD.showmapped_args], []⟩ :
            DetachResult).unmaps.contains m.device))) = listing := by
        simp
      rw [hfil, h1]
      simp
    | some d =>
      by_cases hd : d = ""
      · subst hd
        have h1 : detach_action env listing =
            { status := 0, calls := [RBD.showmapped_args], unmaps := [] } := by
          simp [detach_action, husp, hgd]
        rw [h1]
        have hfil : (listing.filter (fun m =>
            !((⟨0, [RBD.showmapped_args], []⟩ :
              DetachResult).unmaps.contains m.device))) = listing := by
          simp
        rw [hfil, h1]
        simp
      · have h1 : detach_action env listing =
            { status := 0,
              calls := [RBD.showmapped_args,
                RBD.unmap_args d (some env.cephx)],
              unmaps := [d] } := by
          simp [detach_action, husp, hgd, hd]
        obtain ⟨m0, hm0f, hm0name, hm0dev⟩ := get_device_eq_some hgd
        have hm0 : m0 ∈ listing := mem_list_filter hm0f
        have hnone : RBD.get_device (listing.filter (fun m =>
            !(([d] : List String).contains m.device))) env.name
              env.rbd_pool = none := by
          rw [get_device_eq_none_iff]
          intro m hmf hname
          obtain ⟨hmem, hdev⟩ := List.mem_filter.mp (mem_list_filter hmf)
          have hdd : m.device ≠ d := by simpa using hdev
          have : m.device = d := by
            rw [huniq m hmem m0 hm0 (by rw [hname, hm0name]), hm0dev]
          exact hdd this
        rw [h1]
        have hproj : (⟨0,
            [RBD.showmapped_args, RBD.unmap_args d (some env.cephx)],
            [d]⟩ : DetachResult).unmaps = [d] := rfl
        simp only [hproj]
        have h2 : detach_action env (listing.filter (fun m =>
            !(([d] : List String).contains m.device))) =
            { status := 0, calls := [RBD.showmapped_args], unmaps := [] } := by
          unfold detach_action
          rw [husp, hnone]
          simp
        rw [h2]
        simp

/-- Witness for `C4_detach_idempotent` at a concrete mapped volume. -/
theorem C4_detach_idempotent_witness :
    (detach_action
          ⟨"vol", none, none, false, false, none, none, none, none, none,
            ⟨none, none, none⟩⟩
          [⟨"vol", "rbd", "/dev/rbd0"⟩]).unmaps.length +
        (detach_action
          ⟨"vol", none, none, false, false, none, none, none, none, none,
            ⟨none, none, none⟩⟩
          ([⟨"vol", "rbd", "/dev/rbd0"⟩].filter (fun m =>
            !((detach_action
                ⟨"vol", none, none, false, false, none, none, none, none,
                  none, ⟨none, none, none⟩⟩
                [⟨"vol", "rbd", "/dev/rbd0"⟩]).unmaps.contains
              m.device)))).unmaps.length ≤ 1 ∧
      detach_action
          ⟨"vol", none, none, false, false, none, none, none, none, none,
            ⟨none, none, none⟩⟩
          ([⟨"vol", "rbd", "/dev/rbd0"⟩].filter (fun m =>
            !((detach_action
                ⟨"vol", none, none, false, false, none, none, none, none,
                  none, ⟨none, none, none⟩⟩
                [⟨"vol", "rbd", "/dev/rbd0"⟩]).unmaps.contains
              m.device))) =
        { status := 0, calls := [RBD.showmapped_args], unmaps := [] } :=
  (C4_detach_idempotent
      ⟨"vol", none, none, false, false, none, none, none, none, none,
        ⟨none, none, none⟩⟩
      [⟨"vol", "rbd", "/dev/rbd0"⟩] rfl).2.2 (by decide)

/-- Claim C7: attach's idempotency pre-check consults the listing with no
pool filter and no auth flags (its backend call is exactly
`showmapped --format json` and any listed mapping carrying the volume's
name — whatever its pool — suppresses the `map` call), while detach's
pre-check filters the listing by the configured pool (a mapping of the same
name in another pool does not trigger `unmap`). -/
theorem C7_attach_precheck_poolless (env : Env) (listing : List Mapping)
    (mapDevice : String) (husp : env.userspace_only = false) :
    (attach_action env listing mapDevice).calls.head? =
        some ["showmapped", "--format", "json"] ∧
    ((∃ m ∈ listing, m.name = env.name) →
        (attach_action env listing mapDevice).maps = []) ∧
    (∀ p, env.rbd_pool = some p → p ≠ "" →
        (∀ m ∈ listing, m.name = env.name → m.pool ≠ p) →
        (detach_action env listing).unmaps = []) := by
  refine ⟨?_, ?_, ?_⟩
  · rcases hg : RBD.get_device listing env.name none with _ | d <;>
      rcases huri : format_qemu_uri env.name env.rbd_pool env.cephx none
        with s | u <;>
      simp [attach_action, husp, hg, huri, RBD.showmapped_args,
        RBD.exc_args]
  · rintro ⟨m, hm, hname⟩
    cases hg : RBD.get_device listing env.name none with
    | none =>
      rw [get_device_eq_none_iff] at hg
      exact absurd hname (hg m hm)
    | some d =>
      rcases huri : format_qemu_uri env.name env.rbd_pool env.cephx none
        with s | u <;>
        simp [attach_action, husp, hg, huri]
  · intro p hp hpne hmiss
    have hnone : RBD.get_device listing env.name env.rbd_pool = none := by
      rw [get_device_eq_none_iff]
      intro m hmf
      rw [hp] at hmf
      unfold RBD.list_filter at hmf
      rw [if_pos (by simp [truthyOpt, hpne])] at hmf
      obtain ⟨hmem, hpool⟩ := List.mem_filter.mp hmf
      intro hname
      exact hmiss m hmem hname (by simpa [strOpt] using hpool)
    simp [detach_action, husp, hnone]

/-- Witness for `C7_attach_precheck_poolless`: a mapping of the right name
in a different pool is reused by attach but ignored by detach. -/
theorem C7_attach_precheck_poolless_witness :
    (attach_action
          ⟨"vol", none, none, false, false, some "mine", none, none, none,
            none, ⟨some "adm", none, none⟩⟩
          [⟨"vol", "other", "/dev/rbd1"⟩] "").maps = [] ∧
      (detach_action
          ⟨"vol", none, none, false, false, some "mine", none, none, none,
            none, ⟨some "adm", none, none⟩⟩
          [⟨"vol", "other", "/dev/rbd1"⟩]).unmaps = [] :=
  ⟨(C7_attach_precheck_poolless
        ⟨"vol", none, none, false, false, some "mine", none, none, none,
          none, ⟨some "adm", none, none⟩⟩
        [⟨"vol", "other", "/dev/rbd1"⟩] "" rfl).2.1
      ⟨⟨"vol", "other", "/dev/rbd1"⟩, by decide, rfl⟩,
    (C7_attach_precheck_poolless
        ⟨"vol", none, none, false, false, some "mine", none, none, none,
          none, ⟨some "adm", none, none⟩⟩
        [⟨"vol", "other", "/dev/rbd1"⟩] "" rfl).2.2 "mine" rfl (by decide)
      (by decide)⟩

/-- Claim C6: the argument vector built for the backend create command is
exactly the auth flags in the fixed order `--id`, `--keyring`, `--keyfile`
(each omitted when unset), then `create <qualifiedName> --size <size>`,
then `--image-format`, `--image-features`, `--stripe-unit`,
`--stripe-count`, each appended only when set, in that fixed order. -/
theorem C6_create_argument_vector (c : Cephx) (n sz : String)
    (p f ft su sc : Option String) :
    RBD.create_args n sz p f ft su sc (some c) =
      optPair "--id" c.id ++ optPair "--keyring" c.keyring ++
        optPair "--keyfile" c.keyfile ++
        ["create", RBD.format_name n p none, "--size", sz] ++
        optPair "--image-format" f ++ optPair "--image-features" ft ++
        optPair "--stripe-unit" su ++ optPair "--stripe-count" sc := by
  obtain ⟨i, kr, kf⟩ := c
  cases i <;> cases kr <;> cases kf <;> cases f <;> cases ft <;>
    cases su <;> cases sc <;>
    simp [RBD.create_args, RBD.exc_args, RBD.cephx_args, Cephx.isEmpty,
      optPair]

/-- Claim C8 counterexample: a cephx sub-key present with an empty value is
not moved into the cephx dict and stays in the generic pool — the final
configuration does carry `cephx_id` as a pass-through field. -/
theorem C8_counterexample :
    read_env [("VOL_CNAME", "x"), ("EXTP_CEPHX_ID", "")] =
      Except.ok ⟨"x", none, none, ⟨none, none, none⟩, false, false,
        [("cephx_id", "")]⟩ := by
  decide

/-- Claim C8 (amended): every cephx sub-key present in the
extended-parameter pool with a non-empty value is moved into the cephx dict
and removed from the pool, so it is not a pass-through field; an
empty-valued sub-key is left behind instead. -/
theorem C8_cephx_extraction (environ : List (String × String))
    (e : ParsedEnv) (hok : read_env environ = Except.ok e) (v : String)
    (hv : v ≠ "") :
    (dictGet (extpParams environ) "cephx_id" = some v →
        e.cephx.id = some v ∧ dictGet e.extra "cephx_id" = none) ∧
    (dictGet (extpParams environ) "cephx_keyring" = some v →
        e.cephx.keyring = some v ∧
          dictGet e.extra "cephx_keyring" = none) ∧
    (dictGet (extpParams environ) "cephx_keyfile" = some v →
        e.cephx.keyfile = some v ∧
          dictGet e.extra "cephx_keyfile" = none) := by
  unfold read_env at hok
  split at hok
  · cases hok
  next name hname =>
    simp only [] at hok
    split at hok
    · cases hok
    next rd hrd =>
      split at hok
      · cases hok
      next uo huo =>
        injection hok with hok
        subst hok
        have hbase : ∀ k : String, k ≠ "reuse_data" → k ≠ "userspace_only" →
            dictGet uo.2 k = dictGet (extpParams environ) k := by
          intro k h1 h2
          rw [parse_bool_param_get_ne huo h2, parse_bool_param_get_ne hrd h1]
        refine ⟨?_, ?_, ?_⟩
        · intro hid
          have hg : dictGet uo.2 "cephx_id" = some v := by
            rw [hbase _ (by decide) (by decide)]; exact hid
          obtain ⟨hfst, hsnd⟩ := extract1_of_some hg hv
          refine ⟨hfst, ?_⟩
          show dictGet (extract1 "cephx_keyfile"
            (extract1 "cephx_keyring" (extract1 "cephx_id" uo.2).2).2).2
              "cephx_id" = none
          rw [extract1_get_ne _ (by decide), extract1_get_ne _ (by decide)]
          exact hsnd
        · intro hkr
          have hg : dictGet (extract1 "cephx_id" uo.2).2 "cephx_keyring" =
              some v := by
            rw [extract1_get_ne _ (by decide),
              hbase _ (by decide) (by decide)]
            exact hkr
          obtain ⟨hfst, hsnd⟩ := extract1_of_some hg hv
          refine ⟨hfst, ?_⟩
          show dictGet (extract1 "cephx_keyfile"
            (extract1 "cephx_keyring" (extract1 "cephx_id" uo.2).2).2).2
              "cephx_keyring" = none
          rw [extract1_get_ne _ (by decide)]
          exact hsnd
        · intro hkf
          have hg : dictGet (extract1 "cephx_keyring"
              (extract1 "cephx_id" uo.2).2).2 "cephx_keyfile" = some v := by
            rw [extract1_get_ne _ (by decide), extract1_get_ne _ (by decide),
              hbase _ (by decide) (by decide)]
            exact hkf
          obtain ⟨hfst, hsnd⟩ := extract1_of_some hg hv
          exact ⟨hfst, hsnd⟩

/-- Witness for `C8_cephx_extraction` at a concrete environment carrying a
non-empty `EXTP_CEPHX_ID`. -/
theorem C8_cephx_extraction_witness :
    (⟨some "admin", none, none⟩ : Cephx).id = some "admin" ∧
      dictGet ([] : List (String × String)) "cephx_id" = none :=
  (C8_cephx_extraction [("VOL_CNAME", "x"), ("EXTP_CEPHX_ID", "admin")]
      ⟨"x", none, none, ⟨some "admin", none, none⟩, false, false, []⟩
      (by decide) "admin" (by decide)).1 (by decide)

/-- Claim C9: the boolean toggles parse through the pattern
`^(yes|true|on|1|set)$` with `re.IGNORECASE` (`matchTRUE`); the concrete
inputs of the claim evaluate as stated, and an absent value defaults to
false. -/
theorem C9_bool_parsing :
    (∀ v : String, ∃ e : ParsedEnv,
        read_env [("VOL_CNAME", "x"), ("EXTP_REUSE_DATA", v)] =
            Except.ok e ∧
          e.reuse_data = matchTRUE v) ∧
    (∀ v : String, ∃ e : ParsedEnv,
        read_env [("VOL_CNAME", "x"), ("EXTP_USERSPACE_ONLY", v)] =
            Except.ok e ∧
          e.userspace_only = matchTRUE v) ∧
    (matchTRUE "YES" = true ∧ matchTRUE "On" = true ∧
      matchTRUE "1" = true ∧ matchTRUE "set" = true) ∧
    (matchTRUE "" = false ∧ matchTRUE "no" = false ∧
      matchTRUE "0" = false ∧ matchTRUE "maybe" = false) ∧
    (∃ e : ParsedEnv, read_env [("VOL_CNAME", "x")] = Except.ok e ∧
        e.reuse_data = false ∧ e.userspace_only = false) := by
  refine ⟨?_, ?_, by decide, by decide, ⟨_, rfl, rfl, rfl⟩⟩
  · intro v
    obtain ⟨l⟩ := v
    cases l with
    | nil => exact ⟨_, rfl, rfl⟩
    | cons c cs => exact ⟨_, rfl, rfl⟩
  · intro v
    obtain ⟨l⟩ := v
    cases l with
    | nil => exact ⟨_, rfl, rfl⟩
    | cons c cs => exact ⟨_, rfl, rfl⟩

/-- Claim C10: the backend invoker returns the stripped stdout on exit
code 0, and on non-zero exit raises an `RBDException` carrying the argument
vector, the exit code, and both captured (stripped) streams. -/
theorem C10_backend_invoker (args : List String) (res : RBD.ExecResult) :
    (res.rc = 0 → RBD.excRun args res = Except.ok (pyStrip res.stdout)) ∧
    (res.rc ≠ 0 →
      RBD.excRun args res =
        Except.error ⟨args, res.rc, pyStrip res.stdout, pyStrip res.stderr⟩) := by
  constructor <;> intro h <;> simp [RBD.excRun, h]

/-- Witness for `C10_backend_invoker` on both branches. -/
theorem C10_backend_invoker_witness :
    RBD.excRun ["rm", "p/v"] ⟨1, " out \n", " err "⟩ =
        Except.error ⟨["rm", "p/v"], 1, "out", "err"⟩ ∧
      RBD.excRun ["map", "p/v"] ⟨0, " /dev/rbd0\n", ""⟩ =
        Except.ok "/dev/rbd0" := by
  constructor
  · exact (C10_backend_invoker ["rm", "p/v"] ⟨1, " out \n", " err "⟩).2
      (by decide)
  · exact (C10_backend_invoker ["map", "p/v"] ⟨0, " /dev/rbd0\n", ""⟩).1 rfl

end ExtRbd
